import Mathlib

/-!
Shallow embedding of the club-management Express/MongoDB backend
(main source file, the one declaring `verifyFBToken`, `verifySuperAdmin`,
`verifyClubPermission` and the club / membership / manager-application
routes).  Documents are Lean structures, each MongoDB collection is a
`List` of documents, and the database is a record of those lists.
`updateOne` is modelled by `updateOneList`, which rewrites the first
matching document and reports `(matchedCount, modifiedCount)` the way the
driver does: `matchedCount` is 1 iff some document matched the filter,
`modifiedCount` is 1 iff the matched document actually changed.
-/

set_option maxHeartbeats 1000000

namespace ClubSphere

/-- The decoded Firebase token attached to the request as `req.user`;
only `email` is ever consulted by the handlers. -/
structure Principal where
  email : String
  uid : String
deriving DecidableEq

/-- A document of the `users` collection. -/
structure UserDoc where
  email : String
  name : String
  photoURL : String
  role : String
deriving DecidableEq

/-- A document of the `clubs` collection; `userEmail` is the owner email. -/
structure ClubDoc where
  id : String
  userEmail : String
  status : String
  clubName : String
  description : String
  location : String
  category : String
  bannerImage : String
  membershipFee : Int
deriving DecidableEq

/-- A document of the `memberships` collection. -/
structure MembershipDoc where
  id : String
  clubId : String
  userEmail : String
  status : String
deriving DecidableEq

/-- A document of the `club_roles` collection (the derived RoleGrant). -/
structure ClubRoleDoc where
  clubId : String
  userEmail : String
  role : String
  permissions : List String
  assignedAt : Nat
deriving DecidableEq

/-- A document of the `club_managers` collection (a manager application). -/
structure ManagerAppDoc where
  id : String
  email : String
  name : String
  reason : String
  photoURL : String
  status : String
  appliedAt : Nat
deriving DecidableEq

/-- The collections the modelled routes touch. -/
structure DB where
  users : List UserDoc
  clubs : List ClubDoc
  memberships : List MembershipDoc
  clubRoles : List ClubRoleDoc
  clubManagers : List ManagerAppDoc
deriving DecidableEq

/-- An HTTP response: the status code, plus the `matchedCount` and
`modifiedCount` of the update result when the handler answers
`res.send(result)` for an `updateOne` result (0 and 0 otherwise). -/
structure Response where
  status : Nat
  matched : Nat
  modified : Nat
deriving DecidableEq

/-- A response carrying no update counts. -/
def sendOnly (code : Nat) : Response := ⟨code, 0, 0⟩

/-- `collection.updateOne(filter, update)`: rewrite the first document
satisfying `p` using `f`; return the new list together with
`(matchedCount, modifiedCount)`. -/
def updateOneList {α : Type} [DecidableEq α] (p : α → Bool) (f : α → α) :
    List α → List α × Nat × Nat
  | [] => ([], 0, 0)
  | x :: xs =>
    if p x then
      (f x :: xs, 1, if f x = x then 0 else 1)
    else
      let r := updateOneList p f xs
      (x :: r.1, r.2.1, r.2.2)

/-- Hexadecimal digit test, used for ObjectId validity. -/
def isHexDigit (c : Char) : Bool :=
  c.isDigit || (decide (97 ≤ c.toNat) && decide (c.toNat ≤ 102)) ||
    (decide (65 ≤ c.toNat) && decide (c.toNat ≤ 70))

/-- `new ObjectId(s)` succeeds exactly on 24-character hex strings; on any
other string the constructor throws, which the handlers catch and turn
into a 500 response. -/
def isValidObjectId (s : String) : Bool :=
  s.length == 24 && s.toList.all isHexDigit

/-! ## Credential Verifier (`verifyFBToken`) -/

/-- JS `String.prototype.split(" ")` on the character list: split at every
single space, keeping empty groups. -/
def splitOnSpace : List Char → List (List Char)
  | [] => [[]]
  | c :: rest =>
    match splitOnSpace rest with
    | [] => []
    | g :: gs => if c = ' ' then [] :: g :: gs else (c :: g) :: gs

/-- `authHeader.split(" ")[1]` followed by the JS truthiness test on the
token: missing position 1 and the empty string both count as no token. -/
def extractToken (header : String) : Option String :=
  match (splitOnSpace header.toList).get? 1 with
  | none => none
  | some t => if t = [] then none else some (String.mk t)

/-- The external identity authority: maps a raw token to the decoded
principal, or rejects it. -/
structure TokenAuthority where
  verify : String → Option Principal

/-- Outcome of the credential-verifier middleware. -/
inductive AuthResult where
  | ok (p : Principal)
  | fail (code : Nat)
deriving DecidableEq

/-- `verifyFBToken`: 401 when the header is absent or holds no extractable
token, 403 when the authority rejects the token, otherwise the decoded
principal is attached and the chain continues. -/
def verifyFBToken (auth : TokenAuthority) (header : Option String) : AuthResult :=
  match header with
  | none => AuthResult.fail 401
  | some h =>
    match extractToken h with
    | none => AuthResult.fail 401
    | some t =>
      match auth.verify t with
      | some p => AuthResult.ok p
      | none => AuthResult.fail 403

/-- Express middleware chaining: a route mounted behind `verifyFBToken`.
When the verifier fails it responds immediately and the handler never
runs, so the database is returned untouched. -/
def runProtected (auth : TokenAuthority) (header : Option String)
    (handler : Principal → DB → DB × Response) (db : DB) : DB × Response :=
  match verifyFBToken auth header with
  | AuthResult.ok p => handler p db
  | AuthResult.fail c => (db, sendOnly c)

/-! ## Capability guards -/

/-- Outcome of a guard middleware. -/
inductive GuardOutcome where
  | allow
  | reject (code : Nat)
deriving DecidableEq

/-- `verifySuperAdmin`: loads the user record for the verified email and
allows exactly when its role is super_admin; otherwise 403. -/
def verifySuperAdmin (db : DB) (p : Principal) : GuardOutcome :=
  match db.users.find? (fun u => u.email == p.email) with
  | some u =>
    if u.role == "super_admin" then GuardOutcome.allow else GuardOutcome.reject 403
  | none => GuardOutcome.reject 403

/-- `verifyClubPermission`: 400 when the id parameter is missing (falsy),
500 when `new ObjectId` throws on a malformed id (caught by the catch
block), 404 when no club has that id, allow exactly when the persisted
`userEmail` of the club equals the verified email, else 403. -/
def verifyClubPermission (db : DB) (p : Principal) (clubId : String) : GuardOutcome :=
  if clubId == "" then GuardOutcome.reject 400
  else if !(isValidObjectId clubId) then GuardOutcome.reject 500
  else
    match db.clubs.find? (fun c => c.id == clubId) with
    | none => GuardOutcome.reject 404
    | some club =>
      if club.userEmail == p.email then GuardOutcome.allow
      else GuardOutcome.reject 403

/-! ## POST /users -/

/-- The registration body; it may carry a role field, which the handler
discards by overwriting `newUser.role` before inserting. -/
structure RegistrationBody where
  email : String
  name : String
  photoURL : String
  role : String
deriving DecidableEq

/-- POST /users: force the role to member, reject a duplicate email with
400 leaving the collection unchanged, otherwise insert and answer 201. -/
def postUsers (db : DB) (body : RegistrationBody) : DB × Response :=
  let newUser : UserDoc := ⟨body.email, body.name, body.photoURL, "member"⟩
  match db.users.find? (fun u => u.email == body.email) with
  | some _ => (db, sendOnly 400)
  | none => ({ db with users := db.users ++ [newUser] }, sendOnly 201)

/-! ## PATCH /clubs/:id -/

/-- The club update body: each field is optional, and the handler only
copies a string field into the update document when it is truthy. -/
structure ClubPatchBody where
  status : Option String
  clubName : Option String
  description : Option String
  location : Option String
  category : Option String
  bannerImage : Option String
  membershipFee : Option Int
deriving DecidableEq

/-- JS truthiness for an optional string field. -/
def truthy : Option String → Bool
  | none => false
  | some s => s != ""

/-- Copy an optional body field over the stored value only when truthy. -/
def setIfTruthy (o : Option String) (old : String) : String :=
  match o with
  | some s => if s != "" then s else old
  | none => old

/-- The `$set` document built by PATCH /clubs/:id, applied to a club: only
status, clubName, description, location, category, bannerImage and
membershipFee are ever written (membershipFee whenever defined, even 0). -/
def applyClubPatch (b : ClubPatchBody) (c : ClubDoc) : ClubDoc :=
  { c with
    status := setIfTruthy b.status c.status
    clubName := setIfTruthy b.clubName c.clubName
    description := setIfTruthy b.description c.description
    location := setIfTruthy b.location c.location
    category := setIfTruthy b.category c.category
    bannerImage := setIfTruthy b.bannerImage c.bannerImage
    membershipFee := b.membershipFee.getD c.membershipFee }

/-- True when at least one body field survives into the `$set` document;
an empty `$set` makes the driver throw, which the catch turns into 500. -/
def clubPatchNonempty (b : ClubPatchBody) : Bool :=
  truthy b.status || truthy b.clubName || truthy b.description ||
    truthy b.location || truthy b.category || truthy b.bannerImage ||
    b.membershipFee.isSome

/-- PATCH /clubs/:id: update the club matched by id with the enumerated
fields and answer 200 with the raw update result. -/
def patchClub (db : DB) (id : String) (b : ClubPatchBody) : DB × Response :=
  if !(isValidObjectId id) then (db, sendOnly 500)
  else if !(clubPatchNonempty b) then (db, sendOnly 500)
  else
    let r := updateOneList (fun c => c.id == id) (applyClubPatch b) db.clubs
    ({ db with clubs := r.1 }, ⟨200, r.2.1, r.2.2⟩)

/-! ## PATCH /memberships/:id -/

/-- PATCH /memberships/:id: set the status of the membership matched by id
(the filter carries the id only) and answer 200 with the update result. -/
def patchMembership (db : DB) (id : String) (st : String) : DB × Response :=
  if !(isValidObjectId id) then (db, sendOnly 500)
  else
    let r := updateOneList (fun m => m.id == id) (fun m => { m with status := st })
      db.memberships
    ({ db with memberships := r.1 }, ⟨200, r.2.1, r.2.2⟩)

/-! ## PATCH /clubs/:id/members/:email/status -/

/-- Modelled from the spec: the constant list MEMBER_PERMISSIONS is
referenced by the member-approval handler but its declaration is not among
the provided source files; per the spec the derived RoleGrant carries a
non-empty permission set together with role member. -/
def MEMBER_PERMISSIONS : List String :=
  ["view_club", "view_events", "register_event"]

/-- The `club_roles` upsert keyed on (clubId, userEmail): on a match the
`$set` refreshes role and permissions and leaves `assignedAt` alone; with
no match a new document is inserted, `$setOnInsert` supplying
`assignedAt`. -/
def upsertClubRole (roles : List ClubRoleDoc) (clubId userEmail : String)
    (now : Nat) : List ClubRoleDoc :=
  match roles.find? (fun g => g.clubId == clubId && g.userEmail == userEmail) with
  | some _ =>
    (updateOneList (fun g => g.clubId == clubId && g.userEmail == userEmail)
      (fun g => { g with role := "member", permissions := MEMBER_PERMISSIONS })
      roles).1
  | none => roles ++ [⟨clubId, userEmail, "member", MEMBER_PERMISSIONS, now⟩]

/-- PATCH /clubs/:id/members/:email/status: validate the status, update
the membership matched by (clubId, userEmail) — the filter carries no
status — and, only when a document was modified and the new status is
active, upsert the club_roles document; answer 200 with the raw update
result in every non-validation case. -/
def memberStatusUpdate (db : DB) (clubId userEmail st : String) (now : Nat) :
    DB × Response :=
  if !(st == "active" || st == "rejected") then (db, sendOnly 400)
  else
    let r := updateOneList (fun m => m.clubId == clubId && m.userEmail == userEmail)
      (fun m => { m with status := st }) db.memberships
    let db1 := { db with memberships := r.1 }
    if r.2.2 > 0 && st == "active" then
      ({ db1 with clubRoles := upsertClubRole db1.clubRoles clubId userEmail now },
        ⟨200, r.2.1, r.2.2⟩)
    else
      (db1, ⟨200, r.2.1, r.2.2⟩)

/-! ## POST /club-managers -/

/-- The manager-application body. -/
structure ManagerApplicationBody where
  name : String
  email : String
  reason : String
  photoURL : String
deriving DecidableEq

/-- POST /club-managers: 400 when name or email is falsy; with an existing
application for the email, re-open it when rejected (overwriting name,
reason, photoURL, status and appliedAt, keyed and filtered by the same
email) answering 200, otherwise 409 with nothing written; with no existing
application insert a fresh pending one and answer 201. -/
def managerApply (db : DB) (b : ManagerApplicationBody) (now : Nat)
    (newId : String) : DB × Response :=
  if b.name == "" || b.email == "" then (db, sendOnly 400)
  else
    match db.clubManagers.find? (fun m => m.email == b.email) with
    | some existingApp =>
      if existingApp.status == "rejected" then
        let r := updateOneList (fun m => m.email == b.email)
          (fun m => { m with
            name := b.name
            reason := b.reason
            photoURL := b.photoURL
            status := "pending"
            appliedAt := now })
          db.clubManagers
        ({ db with clubManagers := r.1 }, ⟨200, r.2.1, r.2.2⟩)
      else (db, sendOnly 409)
    | none =>
      ({ db with clubManagers :=
          db.clubManagers ++ [⟨newId, b.email, b.name, b.reason, b.photoURL, "pending", now⟩] },
        sendOnly 201)

/-! ## PATCH /club-managers/:id -/

/-- The manager-application patch body; the handler `$set`s the whole
body, so every field present in the request is written to the stored
application, the email included. -/
structure ManagerPatchBody where
  status : Option String
  email : Option String
  name : Option String
  reason : Option String
  photoURL : Option String
deriving DecidableEq

/-- True when the body carries no field at all, in which case the empty
`$set` makes the driver throw and the catch answers 500. -/
def ManagerPatchBody.isEmptyBody (b : ManagerPatchBody) : Bool :=
  b.status.isNone && b.email.isNone && b.name.isNone &&
    b.reason.isNone && b.photoURL.isNone

/-- `$set: updatedManager` applied to a stored application: every body
field present overwrites the stored one. -/
def applyManagerPatch (b : ManagerPatchBody) (m : ManagerAppDoc) : ManagerAppDoc :=
  { m with
    status := b.status.getD m.status
    email := b.email.getD m.email
    name := b.name.getD m.name
    reason := b.reason.getD m.reason
    photoURL := b.photoURL.getD m.photoURL }

/-- `usersCollection.updateOne({email}, {$set: {role: club_manager}})`. -/
def promoteToManager (users : List UserDoc) (email : String) : List UserDoc :=
  (updateOneList (fun u => u.email == email)
    (fun u => { u with role := "club_manager" }) users).1

/-- PATCH /club-managers/:id: `$set` the whole body onto the application
matched by id, then, when the body status is approved, re-read the
application (after that merge) and, when its email is truthy, promote the
matching user to club_manager; answer 200 with the raw update result. -/
def patchClubManager (db : DB) (id : String) (b : ManagerPatchBody) :
    DB × Response :=
  if !(isValidObjectId id) then (db, sendOnly 500)
  else if b.isEmptyBody then (db, sendOnly 500)
  else
    let r := updateOneList (fun m => m.id == id) (applyManagerPatch b) db.clubManagers
    let db1 := { db with clubManagers := r.1 }
    if b.status == some "approved" then
      match db1.clubManagers.find? (fun m => m.id == id) with
      | some application =>
        if application.email != "" then
          ({ db1 with users := promoteToManager db1.users application.email },
            ⟨200, r.2.1, r.2.2⟩)
        else (db1, ⟨200, r.2.1, r.2.2⟩)
      | none => (db1, ⟨200, r.2.1, r.2.2⟩)
    else (db1, ⟨200, r.2.1, r.2.2⟩)

/-- The route as mounted: `app.patch(club-managers/:id, verifyFBToken,
handler)` — the only middleware ahead of the handler is the credential
verifier; no super-admin guard is in the chain. -/
def patchClubManagersRoute (auth : TokenAuthority) (header : Option String)
    (id : String) (b : ManagerPatchBody) (db : DB) : DB × Response :=
  runProtected auth header (fun _p d => patchClubManager d id b) db

/-! ## General lemmas about the updateOne model -/

theorem updateOneList_of_find_none {α : Type} [DecidableEq α]
    {p : α → Bool} {f : α → α} :
    ∀ l : List α, l.find? p = none → updateOneList p f l = (l, 0, 0) := by
  intro l
  induction l with
  | nil => intro _; rfl
  | cons x xs ih =>
    intro h
    by_cases hx : p x
    · simp [List.find?_cons_of_pos _ hx] at h
    · rw [List.find?_cons_of_neg _ (by simp [hx])] at h
      simp [updateOneList, hx, ih h]

theorem find?_updateOneList_pres {α : Type} [DecidableEq α]
    {p : α → Bool} {f : α → α} (hf : ∀ x, p x = true → p (f x) = true) :
    ∀ (l : List α) (a : α), l.find? p = some a →
      ((updateOneList p f l).1).find? p = some (f a) := by
  intro l
  induction l with
  | nil => intro a h; simp [List.find?] at h
  | cons x xs ih =>
    intro a h
    by_cases hx : p x
    · rw [List.find?_cons_of_pos _ hx] at h
      cases h
      simp [updateOneList, hx, List.find?_cons_of_pos _ (hf _ hx)]
    · rw [List.find?_cons_of_neg _ (by simp [hx])] at h
      simp [updateOneList, hx, List.find?_cons_of_neg _ (by simp [hx] : ¬p x = true)]
      exact ih a h

theorem updateOneList_counts {α : Type} [DecidableEq α]
    {p : α → Bool} {f : α → α} :
    ∀ (l : List α) (a : α), l.find? p = some a →
      (updateOneList p f l).2.1 = 1 ∧
        (updateOneList p f l).2.2 = (if f a = a then 0 else 1) := by
  intro l
  induction l with
  | nil => intro a h; simp [List.find?] at h
  | cons x xs ih =>
    intro a h
    by_cases hx : p x
    · rw [List.find?_cons_of_pos _ hx] at h
      cases h
      simp [updateOneList, hx]
    · rw [List.find?_cons_of_neg _ (by simp [hx])] at h
      simpa [updateOneList, hx] using ih a h

theorem updateOneList_map_invariant {α β : Type} [DecidableEq α]
    {p : α → Bool} {f : α → α} (g : α → β) (hg : ∀ x, g (f x) = g x) :
    ∀ l : List α, ((updateOneList p f l).1).map g = l.map g := by
  intro l
  induction l with
  | nil => rfl
  | cons x xs ih =>
    by_cases hx : p x
    · simp [updateOneList, hx, hg]
    · simp [updateOneList, hx, ih]

theorem filter_eq_nil_of_find?_none {α : Type} {p : α → Bool} {l : List α}
    (h : l.find? p = none) : l.filter p = [] := by
  rw [List.filter_eq_nil_iff]
  intro a ha
  exact List.find?_eq_none.mp h a ha

theorem validObjectId_ne_empty {s : String} (h : isValidObjectId s = true) :
    (s == "") = false := by
  by_cases hs : s = ""
  · subst hs; exact absurd h (by decide)
  · exact beq_eq_false_iff_ne.mpr hs

/-! ## Shared concrete fixtures -/

/-- A well-formed 24-character hex ObjectId. -/
def oid1 : String := "aaaaaaaaaaaaaaaaaaaaaaaa"

/-- A second well-formed ObjectId, matching no stored document. -/
def oid2 : String := "bbbbbbbbbbbbbbbbbbbbbbbb"

/-! ## Claim C4 — ClubOwnerGuard characterization -/

/-- Fixture club owned by owner@x.com. -/
def c4club : ClubDoc := ⟨oid1, "owner@x.com", "approved", "C", "d", "l", "cat", "b", 0⟩

/-- Fixture database for C4. -/
def c4db : DB := ⟨[], [c4club], [], [], []⟩

/-- Fixture principal for C4. -/
def c4p : Principal := ⟨"owner@x.com", "u1"⟩

/-- C4 counterexample: the claim says a malformed club identifier is
rejected with InvalidInput 400 before the lookup; in the code the
ObjectId constructor throws inside the try block and the catch answers
500, so a malformed non-empty id yields 500, not 400. -/
theorem c4_counterexample :
    verifyClubPermission c4db c4p "zz" = GuardOutcome.reject 500 ∧
    verifyClubPermission c4db c4p "zz" ≠ GuardOutcome.reject 400 := by decide

/-- C4 (amended): the guard rejects a missing (empty) id with 400, a
malformed non-empty id with 500 (the thrown ObjectId construction is
caught as an internal error, not InvalidInput 400 as claimed), answers
404 when no club has the id, and otherwise allows exactly when the
persisted owner email of the club equals the principal verified email,
rejecting with 403 otherwise; only those two fields decide the outcome. -/
theorem c4_guard_characterization (db : DB) (p : Principal) (cid : String) :
    (cid = "" → verifyClubPermission db p cid = GuardOutcome.reject 400) ∧
    (cid ≠ "" → isValidObjectId cid = false →
      verifyClubPermission db p cid = GuardOutcome.reject 500) ∧
    (isValidObjectId cid = true →
      db.clubs.find? (fun c => c.id == cid) = none →
      verifyClubPermission db p cid = GuardOutcome.reject 404) ∧
    (∀ c : ClubDoc, isValidObjectId cid = true →
      db.clubs.find? (fun c => c.id == cid) = some c →
      verifyClubPermission db p cid =
        (if c.userEmail == p.email then GuardOutcome.allow
          else GuardOutcome.reject 403)) := by
  refine ⟨?_, ?_, ?_, ?_⟩
  · intro h; subst h; rfl
  · intro h1 h2
    simp [verifyClubPermission, beq_eq_false_iff_ne.mpr h1, h2]
  · intro h1 h2
    simp [verifyClubPermission, validObjectId_ne_empty h1, h1, h2]
  · intro c h1 h2
    simp [verifyClubPermission, validObjectId_ne_empty h1, h1, h2]

/-- C4 witness: the characterization evaluated at the fixture club and its
owner allows the request. -/
theorem c4_witness : verifyClubPermission c4db c4p oid1 = GuardOutcome.allow := by
  have h := (c4_guard_characterization c4db c4p oid1).2.2.2 c4club (by decide) (by decide)
  simpa using h

/-! ## Claim C7 — club owner email is immutable -/

/-- C7: for every club update request the persisted owner-email field
(`userEmail`) of every club is unchanged — the handler only ever writes
the enumerated fields status, clubName, description, location, category,
bannerImage and membershipFee — and the ClubOwnerGuard decision allows
exactly when the persisted owner email of the looked-up club equals the
verified principal email, so ownership is always evaluated against the
persisted record and never a caller-supplied value. -/
theorem c7_owner_email_immutable (db : DB) (id : String) (b : ClubPatchBody) :
    ((patchClub db id b).1).clubs.map (fun c => (c.id, c.userEmail)) =
      db.clubs.map (fun c => (c.id, c.userEmail)) ∧
    (∀ (p : Principal) (cid : String),
      verifyClubPermission db p cid = GuardOutcome.allow ↔
        isValidObjectId cid = true ∧
          ∃ c : ClubDoc, db.clubs.find? (fun x => x.id == cid) = some c ∧
            c.userEmail = p.email) := by
  constructor
  · have key := @updateOneList_map_invariant ClubDoc (String × String) _
      (fun c => c.id == id) (applyClubPatch b)
      (fun c => (c.id, c.userEmail)) (fun x => rfl) db.clubs
    by_cases h1 : isValidObjectId id
    · by_cases h2 : clubPatchNonempty b
      · simpa [patchClub, h1, h2] using key
      · simp [patchClub, h1, h2]
    · simp [patchClub, h1]
  · intro p cid
    constructor
    · intro h
      by_cases h0 : cid = ""
      · subst h0; simp [verifyClubPermission] at h
      · by_cases h1 : isValidObjectId cid
        · cases hf : db.clubs.find? (fun x => x.id == cid) with
          | none => simp [verifyClubPermission, beq_eq_false_iff_ne.mpr h0, h1, hf] at h
          | some c =>
            by_cases h2 : c.userEmail == p.email
            · exact ⟨h1, ⟨c, rfl, by simpa using h2⟩⟩
            · simp [verifyClubPermission, beq_eq_false_iff_ne.mpr h0, h1, hf, h2] at h
        · simp [verifyClubPermission, beq_eq_false_iff_ne.mpr h0, h1] at h
    · rintro ⟨h1, c, hf, he⟩
      simp [verifyClubPermission, validObjectId_ne_empty h1, h1, hf, he]

/-- C7 witness: a concrete update naming every settable field, the owner
email included in none of them, leaves the (id, ownerEmail) pairs intact,
and the guard allows the owner of the fixture club. -/
theorem c7_witness :
    ((patchClub c4db oid1
        ⟨some "approved", some "N", some "D", some "L", some "K", some "B", some 3⟩).1).clubs.map
        (fun c => (c.id, c.userEmail)) =
      c4db.clubs.map (fun c => (c.id, c.userEmail)) ∧
    verifyClubPermission c4db ⟨"owner@x.com", "u9"⟩ oid1 = GuardOutcome.allow := by
  have h := c7_owner_email_immutable c4db oid1
    ⟨some "approved", some "N", some "D", some "L", some "K", some "B", some 3⟩
  refine ⟨h.1, ?_⟩
  exact (h.2 ⟨"owner@x.com", "u9"⟩ oid1).mpr ⟨by decide, c4club, by decide, rfl⟩

/-! ## Claim C8 — credential verifier short-circuits -/

/-- C8: on a guard-protected endpoint a missing Authorization header or a
header with no extractable token answers 401, a token the identity
authority rejects answers 403, and in every such case the handler never
runs: the database is returned exactly as it was, whatever the handler
would have done. -/
theorem c8_guard_short_circuits (auth : TokenAuthority)
    (handler : Principal → DB → DB × Response) (db : DB) :
    (runProtected auth none handler db = (db, sendOnly 401)) ∧
    (∀ h : String, extractToken h = none →
      runProtected auth (some h) handler db = (db, sendOnly 401)) ∧
    (∀ h t : String, extractToken h = some t → auth.verify t = none →
      runProtected auth (some h) handler db = (db, sendOnly 403)) := by
  refine ⟨rfl, ?_, ?_⟩
  · intro h hh
    simp [runProtected, verifyFBToken, hh]
  · intro h t hh hv
    simp [runProtected, verifyFBToken, hh, hv]

/-- A handler that would wipe every collection, used to witness that the
guard short-circuit never lets the handler touch the database. -/
def c8wipe : Principal → DB → DB × Response :=
  fun _ _ => (⟨[], [], [], [], []⟩, sendOnly 200)

/-- An authority rejecting every token. -/
def c8deny : TokenAuthority := ⟨fun _ => none⟩

/-- C8 witness: with a destructive handler behind the verifier, a missing
header, a header without token, and a rejected token all leave the
fixture database untouched with 401, 401 and 403. -/
theorem c8_witness :
    runProtected c8deny none c8wipe c4db = (c4db, sendOnly 401) ∧
    runProtected c8deny (some "Bearer") c8wipe c4db = (c4db, sendOnly 401) ∧
    runProtected c8deny (some "Bearer bad") c8wipe c4db = (c4db, sendOnly 403) := by
  refine ⟨(c8_guard_short_circuits c8deny c8wipe c4db).1,
    (c8_guard_short_circuits c8deny c8wipe c4db).2.1 "Bearer" (by decide),
    (c8_guard_short_circuits c8deny c8wipe c4db).2.2 "Bearer bad" "bad" (by decide) rfl⟩

/-! ## Claim C9 — registration cannot self-assign a role -/

/-- C9: POST /users stores the new user with role member whatever role the
body carried, and a duplicate email is rejected with 400 leaving the
users collection (and the whole database) unchanged. -/
theorem c9_registration_forces_member_role (db : DB) (b : RegistrationBody) :
    (db.users.find? (fun u => u.email == b.email) = none →
      postUsers db b =
        ({ db with users := db.users ++ [⟨b.email, b.name, b.photoURL, "member"⟩] },
          sendOnly 201)) ∧
    (∀ u : UserDoc, db.users.find? (fun u => u.email == b.email) = some u →
      postUsers db b = (db, sendOnly 400)) := by
  constructor
  · intro h; simp [postUsers, h]
  · intro u h; simp [postUsers, h]

/-- Registration body trying to self-assign the super_admin role. -/
def c9body : RegistrationBody := ⟨"a@x.com", "A", "p", "super_admin"⟩

/-- Fixture database already holding the c9 email. -/
def c9dbDup : DB := ⟨[⟨"a@x.com", "A", "p", "member"⟩], [], [], [], []⟩

/-- C9 witness: a body claiming super_admin is stored with role member,
and re-registering the same email answers 400 and changes nothing. -/
theorem c9_witness :
    postUsers ⟨[], [], [], [], []⟩ c9body =
      ({ (⟨[], [], [], [], []⟩ : DB) with
          users := [] ++ [⟨c9body.email, c9body.name, c9body.photoURL, "member"⟩] },
        sendOnly 201) ∧
    postUsers c9dbDup c9body = (c9dbDup, sendOnly 400) := by
  refine ⟨(c9_registration_forces_member_role ⟨[], [], [], [], []⟩ c9body).1 (by decide),
    (c9_registration_forces_member_role c9dbDup c9body).2 ⟨"a@x.com", "A", "p", "member"⟩
      (by decide)⟩

/-! ## Claim C1 — which principal does an approval promote -/

/-- Fixture pending application by alice. -/
def c1app : ManagerAppDoc := ⟨oid1, "alice@x.com", "Alice", "r", "p", "pending", 0⟩

/-- Fixture database for C1: alice has applied, alice and eve are plain
members. -/
def c1db : DB :=
  ⟨[⟨"alice@x.com", "Alice", "p", "member"⟩, ⟨"eve@x.com", "Eve", "p", "member"⟩],
    [], [], [], [c1app]⟩

/-- Approval body carrying no email. -/
def c1bodyA : ManagerPatchBody := ⟨some "approved", none, none, none, none⟩

/-- Approval body identical except for a caller-supplied email. -/
def c1bodyB : ManagerPatchBody := ⟨some "approved", some "eve@x.com", none, none, none⟩

/-- C1 counterexample: the claim says two approval requests differing only
in the email value supplied in the body promote the same Principal; in
the code the whole body is `$set` onto the application before the
promotion re-reads it, so the body without an email promotes alice (the
stored applicant) while the body carrying eve promotes eve and leaves
alice a member. -/
theorem c1_counterexample :
    ((patchClubManager c1db oid1 c1bodyA).1.users.find?
        (fun u => u.email == "alice@x.com")).map (fun u => u.role) =
      some "club_manager" ∧
    ((patchClubManager c1db oid1 c1bodyA).1.users.find?
        (fun u => u.email == "eve@x.com")).map (fun u => u.role) =
      some "member" ∧
    ((patchClubManager c1db oid1 c1bodyB).1.users.find?
        (fun u => u.email == "eve@x.com")).map (fun u => u.role) =
      some "club_manager" ∧
    ((patchClubManager c1db oid1 c1bodyB).1.users.find?
        (fun u => u.email == "alice@x.com")).map (fun u => u.role) =
      some "member" := by decide

/-- C1 (amended): when the approval body carries no email field, the
promotion targets exactly the Principal whose email equals the stored
application email as persisted before the request; a body that does carry
an email overwrites the stored one first and can redirect the promotion,
so the promotion decision is independent of the caller exactly in the
email-free case. -/
theorem c1_promotion_uses_stored_email (db : DB) (id : String)
    (b : ManagerPatchBody) (app : ManagerAppDoc)
    (hid : isValidObjectId id = true)
    (hfind : db.clubManagers.find? (fun m => m.id == id) = some app)
    (hb : b.email = none)
    (hst : b.status = some "approved")
    (hne : (app.email == "") = false) :
    (patchClubManager db id b).1.users = promoteToManager db.users app.email := by
  have hemptyB : b.isEmptyBody = false := by
    simp [ManagerPatchBody.isEmptyBody, hst]
  have hfind2 := @find?_updateOneList_pres ManagerAppDoc _
    (fun m => m.id == id) (applyManagerPatch b)
    (fun m hm => by simpa [applyManagerPatch] using hm) db.clubManagers app hfind
  have hemail : (applyManagerPatch b app).email = app.email := by
    simp [applyManagerPatch, hb]
  simp [patchClubManager, hid, hemptyB, hst, hfind2, hemail, bne, hne]

/-- C1 witness: the email-free approval of the fixture application
promotes exactly the stored applicant alice. -/
theorem c1_witness :
    (patchClubManager c1db oid1 c1bodyA).1.users =
      promoteToManager c1db.users c1app.email :=
  c1_promotion_uses_stored_email c1db oid1 c1bodyA c1app (by decide) (by decide)
    rfl rfl (by decide)

/-! ## Claim C2 — no SuperAdminGuard on manager-application approval -/

/-- Authority accepting exactly the token tok as bob. -/
def c2auth : TokenAuthority :=
  ⟨fun t => if t = "tok" then some ⟨"bob@x.com", "u2"⟩ else none⟩

/-- Fixture database for C2: bob is a plain member, alice has a pending
application. -/
def c2db : DB :=
  ⟨[⟨"bob@x.com", "Bob", "p", "member"⟩, ⟨"alice@x.com", "Alice", "p", "member"⟩],
    [], [], [], [⟨oid1, "alice@x.com", "Alice", "r", "p", "pending", 0⟩]⟩

/-- Approval body used by the C2 fixtures. -/
def c2body : ManagerPatchBody := ⟨some "approved", none, none, none, none⟩

/-- C2 counterexample: the claim says an approval request from an
authenticated principal whose persisted role is not super_admin fails
with 403 and changes nothing; the route is mounted behind the credential
verifier only, so member bob approves the application with 200, its
status changes, and alice is promoted. -/
theorem c2_counterexample :
    (c2db.users.find? (fun u => u.email == "bob@x.com")).map (fun u => u.role) =
      some "member" ∧
    (patchClubManagersRoute c2auth (some "Bearer tok") oid1 c2body c2db).2.status = 200 ∧
    ((patchClubManagersRoute c2auth (some "Bearer tok") oid1 c2body c2db).1.clubManagers.find?
        (fun m => m.id == oid1)).map (fun m => m.status) = some "approved" ∧
    ((patchClubManagersRoute c2auth (some "Bearer tok") oid1 c2body c2db).1.users.find?
        (fun u => u.email == "alice@x.com")).map (fun u => u.role) =
      some "club_manager" := by decide

/-- C2 (amended): the approve/reject route passes the Credential Verifier
and nothing else: once the verifier accepts the token, the handler runs
unconditionally — the outcome is exactly the unguarded handler result,
independent of the authenticated principal and of any persisted role, so
no SuperAdminGuard takes part in the chain. -/
theorem c2_no_role_guard_on_manager_patch (auth : TokenAuthority)
    (header : Option String) (db : DB) (id : String) (b : ManagerPatchBody)
    (p : Principal) (h : verifyFBToken auth header = AuthResult.ok p) :
    patchClubManagersRoute auth header id b db = patchClubManager db id b := by
  simp [patchClubManagersRoute, runProtected, h]

/-- C2 witness: with the fixture token accepted as bob, the route result
is literally the unguarded handler result. -/
theorem c2_witness :
    patchClubManagersRoute c2auth (some "Bearer tok") oid1 c2body c2db =
      patchClubManager c2db oid1 c2body :=
  c2_no_role_guard_on_manager_patch c2auth (some "Bearer tok") c2db oid1 c2body
    ⟨"bob@x.com", "u2"⟩ (by decide)

/-! ## Structural lemmas about the member status endpoint -/

theorem memberStatusUpdate_resp (db : DB) (C E st : String) (now : Nat)
    (hstb : (st == "active" || st == "rejected") = true) :
    (memberStatusUpdate db C E st now).2 =
      ⟨200,
        (updateOneList (fun m => m.clubId == C && m.userEmail == E)
          (fun m => { m with status := st }) db.memberships).2.1,
        (updateOneList (fun m => m.clubId == C && m.userEmail == E)
          (fun m => { m with status := st }) db.memberships).2.2⟩ := by
  simp only [memberStatusUpdate, hstb, Bool.not_true, Bool.false_eq_true, if_false]
  split <;> rfl

theorem memberStatusUpdate_memberships (db : DB) (C E st : String) (now : Nat)
    (hstb : (st == "active" || st == "rejected") = true) :
    (memberStatusUpdate db C E st now).1.memberships =
      (updateOneList (fun m => m.clubId == C && m.userEmail == E)
        (fun m => { m with status := st }) db.memberships).1 := by
  simp only [memberStatusUpdate, hstb, Bool.not_true, Bool.false_eq_true, if_false]
  split <;> rfl

theorem memberStatusUpdate_clubRoles_then (db : DB) (C E st : String) (now : Nat)
    (hstb : (st == "active" || st == "rejected") = true)
    (hc : ((updateOneList (fun m => m.clubId == C && m.userEmail == E)
      (fun m => { m with status := st }) db.memberships).2.2 > 0 && st == "active") = true) :
    (memberStatusUpdate db C E st now).1.clubRoles =
      upsertClubRole db.clubRoles C E now := by
  simp only [memberStatusUpdate, hstb, Bool.not_true, Bool.false_eq_true, if_false, hc,
    if_true]

theorem memberStatusUpdate_clubRoles_else (db : DB) (C E st : String) (now : Nat)
    (hstb : (st == "active" || st == "rejected") = true)
    (hc : ((updateOneList (fun m => m.clubId == C && m.userEmail == E)
      (fun m => { m with status := st }) db.memberships).2.2 > 0 && st == "active") = false) :
    (memberStatusUpdate db C E st now).1.clubRoles = db.clubRoles := by
  simp only [memberStatusUpdate, hstb, Bool.not_true, Bool.false_eq_true, if_false, hc]

theorem memberStatusUpdate_no_match (db : DB) (C E st : String) (now : Nat)
    (hstb : (st == "active" || st == "rejected") = true)
    (h : db.memberships.find? (fun m => m.clubId == C && m.userEmail == E) = none) :
    memberStatusUpdate db C E st now = (db, ⟨200, 0, 0⟩) := by
  have hr := @updateOneList_of_find_none MembershipDoc _
    (fun m => m.clubId == C && m.userEmail == E)
    (fun m => { m with status := st }) db.memberships h
  simp [memberStatusUpdate, hstb, hr]

/-! ## Claim C3 — lifecycle writes are not conditional on status -/

/-- Fixture membership already rejected (not in the pending state). -/
def c3mem : MembershipDoc := ⟨oid1, "club1", "bob@x.com", "rejected"⟩

/-- Fixture database for C3. -/
def c3db : DB := ⟨[], [], [c3mem], [], []⟩

/-- Fixture rejection body for the manager route. -/
def c3body : ManagerPatchBody := ⟨some "rejected", none, none, none, none⟩

/-- C3 counterexample: the claim says each lifecycle write matches on the
id and the currently-expected status and that a zero-row write surfaces
Conflict; in the code the membership filter carries the id only, so a
rejected membership is happily transitioned to active with 200, and a
write matching zero rows also answers 200, never 409. -/
theorem c3_counterexample :
    patchMembership c3db oid2 "active" = (c3db, ⟨200, 0, 0⟩) ∧
    (patchMembership c3db oid1 "active").1.memberships =
      [⟨oid1, "club1", "bob@x.com", "active"⟩] ∧
    (patchMembership c3db oid1 "active").2 = ⟨200, 1, 1⟩ := by decide

/-- C3 (amended): none of the three lifecycle writes (membership status
by id, member status by clubId and email, manager application by id)
includes the current status in its filter; each matches on identity
alone, answers 200 whenever validation passes — even when zero rows
match, in which case the database is returned unchanged with
matchedCount 0 — and never surfaces Conflict 409. -/
theorem c3_unconditional_writes (db : DB) (id st C E : String) (now : Nat)
    (b : ManagerPatchBody)
    (hid : isValidObjectId id = true)
    (hst : st = "active" ∨ st = "rejected")
    (hb : b.isEmptyBody = false) :
    ((patchMembership db id st).2.status = 200) ∧
    (db.memberships.find? (fun m => m.id == id) = none →
      patchMembership db id st = (db, ⟨200, 0, 0⟩)) ∧
    (∀ m : MembershipDoc, db.memberships.find? (fun m => m.id == id) = some m →
      (patchMembership db id st).2.matched = 1) ∧
    ((memberStatusUpdate db C E st now).2.status = 200) ∧
    (db.memberships.find? (fun m => m.clubId == C && m.userEmail == E) = none →
      memberStatusUpdate db C E st now = (db, ⟨200, 0, 0⟩)) ∧
    ((patchClubManager db id b).2.status = 200) ∧
    (db.clubManagers.find? (fun m => m.id == id) = none →
      patchClubManager db id b = (db, ⟨200, 0, 0⟩)) := by
  have hstb : (st == "active" || st == "rejected") = true := by
    rcases hst with h | h <;> subst h <;> decide
  refine ⟨?_, ?_, ?_, ?_, ?_, ?_, ?_⟩
  · simp [patchMembership, hid]
  · intro h
    have hr := @updateOneList_of_find_none MembershipDoc _
      (fun m => m.id == id) (fun m => { m with status := st }) db.memberships h
    simp [patchMembership, hid, hr]
  · intro m hm
    have hc := @updateOneList_counts MembershipDoc _
      (fun m => m.id == id) (fun m => { m with status := st }) db.memberships m hm
    simp [patchMembership, hid, hc.1]
  · rw [memberStatusUpdate_resp db C E st now hstb]
  · exact memberStatusUpdate_no_match db C E st now hstb
  · by_cases h1 : (b.status == some "approved")
    · cases hf : ((updateOneList (fun m => m.id == id) (applyManagerPatch b)
          db.clubManagers).1).find? (fun m => m.id == id) with
      | none => simp [patchClubManager, hid, hb, h1, hf]
      | some app =>
        by_cases h2 : (app.email != "")
        · simp [patchClubManager, hid, hb, h1, hf, h2]
        · simp [patchClubManager, hid, hb, h1, hf, h2]
    · simp [patchClubManager, hid, hb, h1]
  · intro h
    have hr := @updateOneList_of_find_none ManagerAppDoc _
      (fun m => m.id == id) (applyManagerPatch b) db.clubManagers h
    by_cases h1 : (b.status == some "approved")
    · simp [patchClubManager, hid, hb, h1, hr, h]
    · simp [patchClubManager, hid, hb, h1, hr]

/-- C3 witness: a member-status write naming an absent pair and a manager
write naming an absent id both answer 200 with zero matched rows and
leave the database unchanged. -/
theorem c3_witness :
    memberStatusUpdate c3db "cX" "eX" "active" 0 = (c3db, ⟨200, 0, 0⟩) ∧
    patchClubManager c3db oid2 c3body = (c3db, ⟨200, 0, 0⟩) := by
  have h := c3_unconditional_writes c3db oid2 "active" "cX" "eX" 0 c3body
    (by decide) (Or.inl rfl) (by decide)
  exact ⟨h.2.2.2.2.1 (by decide), h.2.2.2.2.2.2 (by decide)⟩

/-! ## Claim C10 — gating of the derived role-grant write -/

/-- C10: a member-status update naming a pair with no matching membership
answers 200 with zero matched rows (not NotFound) and writes no role
grant; when the matched membership already carries the requested status
nothing is modified and no derived write happens; and the club_roles
collection can only change when a membership document was actually
modified and the requested status is active. -/
theorem c10_derived_write_gating (db : DB) (C E st : String) (now : Nat)
    (hst : st = "active" ∨ st = "rejected") :
    (db.memberships.find? (fun m => m.clubId == C && m.userEmail == E) = none →
      memberStatusUpdate db C E st now = (db, ⟨200, 0, 0⟩)) ∧
    (∀ m : MembershipDoc,
      db.memberships.find? (fun m => m.clubId == C && m.userEmail == E) = some m →
      m.status = st →
      (memberStatusUpdate db C E st now).2.modified = 0 ∧
      (memberStatusUpdate db C E st now).1.clubRoles = db.clubRoles) ∧
    ((memberStatusUpdate db C E st now).1.clubRoles ≠ db.clubRoles →
      (memberStatusUpdate db C E st now).2.modified = 1 ∧ st = "active") := by
  have hstb : (st == "active" || st == "rejected") = true := by
    rcases hst with h | h <;> subst h <;> decide
  refine ⟨memberStatusUpdate_no_match db C E st now hstb, ?_, ?_⟩
  · intro m hm hmst
    have hc := @updateOneList_counts MembershipDoc _
      (fun m => m.clubId == C && m.userEmail == E)
      (fun m => { m with status := st }) db.memberships m hm
    have hfix : ({ m with status := st } : MembershipDoc) = m := by
      subst hmst; rfl
    have hmod : (updateOneList (fun m => m.clubId == C && m.userEmail == E)
        (fun m => { m with status := st }) db.memberships).2.2 = 0 := by
      rw [hc.2, if_pos hfix]
    constructor
    · rw [memberStatusUpdate_resp db C E st now hstb]
      exact hmod
    · exact memberStatusUpdate_clubRoles_else db C E st now hstb (by simp [hmod])
  · intro hchange
    cases hF : db.memberships.find? (fun m => m.clubId == C && m.userEmail == E) with
    | none =>
      exact absurd (by rw [memberStatusUpdate_no_match db C E st now hstb hF]) hchange
    | some m =>
      have hc := @updateOneList_counts MembershipDoc _
        (fun m => m.clubId == C && m.userEmail == E)
        (fun m => { m with status := st }) db.memberships m hF
      by_cases hfix : ({ m with status := st } : MembershipDoc) = m
      · have hmod : (updateOneList (fun m => m.clubId == C && m.userEmail == E)
            (fun m => { m with status := st }) db.memberships).2.2 = 0 := by
          rw [hc.2, if_pos hfix]
        exact absurd
          (memberStatusUpdate_clubRoles_else db C E st now hstb (by simp [hmod])) hchange
      · have hmod : (updateOneList (fun m => m.clubId == C && m.userEmail == E)
            (fun m => { m with status := st }) db.memberships).2.2 = 1 := by
          rw [hc.2, if_neg hfix]
        by_cases hact : st = "active"
        · refine ⟨?_, hact⟩
          rw [memberStatusUpdate_resp db C E st now hstb]
          exact hmod
        · have hoff : ((updateOneList (fun m => m.clubId == C && m.userEmail == E)
              (fun m => { m with status := st }) db.memberships).2.2 > 0 &&
              st == "active") = false := by
            simp [beq_eq_false_iff_ne.mpr hact]
          exact absurd
            (memberStatusUpdate_clubRoles_else db C E st now hstb hoff) hchange

/-- Fixture database for the C10 witness: one active membership, no role
grants. -/
def c10db : DB := ⟨[], [], [⟨oid1, "club1", "bob@x.com", "active"⟩], [], []⟩

/-- C10 witness: an update naming an absent pair leaves the database
unchanged with 200 and zero counts, and re-sending active for the
already-active fixture modifies nothing and writes no role grant. -/
theorem c10_witness :
    memberStatusUpdate c10db "nope" "nobody@x.com" "active" 3 = (c10db, ⟨200, 0, 0⟩) ∧
    (memberStatusUpdate c10db "club1" "bob@x.com" "active" 3).2.modified = 0 ∧
    (memberStatusUpdate c10db "club1" "bob@x.com" "active" 3).1.clubRoles =
      c10db.clubRoles := by
  refine ⟨(c10_derived_write_gating c10db "nope" "nobody@x.com" "active" 3
      (Or.inl rfl)).1 (by decide), ?_, ?_⟩
  · exact ((c10_derived_write_gating c10db "club1" "bob@x.com" "active" 3
      (Or.inl rfl)).2.1 ⟨oid1, "club1", "bob@x.com", "active"⟩ (by decide) rfl).1
  · exact ((c10_derived_write_gating c10db "club1" "bob@x.com" "active" 3
      (Or.inl rfl)).2.1 ⟨oid1, "club1", "bob@x.com", "active"⟩ (by decide) rfl).2

/-! ## Claim C5 — the role-grant upsert is idempotent -/

/-- C5: transitioning a pending membership for (C, E) to active once
leaves exactly one role grant for (C, E), carrying role member and the
non-empty permission list, with assignedAt set to the transition time;
retrying the identical request leaves the club_roles collection — the
already-set assignedAt included — exactly as it was. -/
theorem c5_role_grant_idempotent (db : DB) (C E : String) (t1 t2 : Nat)
    (m0 : MembershipDoc)
    (hm : db.memberships.find? (fun m => m.clubId == C && m.userEmail == E) = some m0)
    (hpend : m0.status = "pending")
    (hg : db.clubRoles.find? (fun g => g.clubId == C && g.userEmail == E) = none) :
    ((memberStatusUpdate db C E "active" t1).1.clubRoles.filter
        (fun g => g.clubId == C && g.userEmail == E)) =
      [⟨C, E, "member", MEMBER_PERMISSIONS, t1⟩] ∧
    MEMBER_PERMISSIONS ≠ [] ∧
    (memberStatusUpdate (memberStatusUpdate db C E "active" t1).1
        C E "active" t2).1.clubRoles =
      (memberStatusUpdate db C E "active" t1).1.clubRoles := by
  have hstb : (("active" : String) == "active" || ("active" : String) == "rejected") = true := by
    decide
  have hc := @updateOneList_counts MembershipDoc _
    (fun m => m.clubId == C && m.userEmail == E)
    (fun m => { m with status := "active" }) db.memberships m0 hm
  have hneq : ({ m0 with status := "active" } : MembershipDoc) ≠ m0 := by
    intro h
    have hs : ("active" : String) = m0.status := congrArg MembershipDoc.status h
    rw [hpend] at hs
    exact absurd hs (by decide)
  have hmod : (updateOneList (fun m => m.clubId == C && m.userEmail == E)
      (fun m => { m with status := "active" }) db.memberships).2.2 = 1 := by
    rw [hc.2, if_neg hneq]
  have hon : ((updateOneList (fun m => m.clubId == C && m.userEmail == E)
      (fun m => { m with status := "active" }) db.memberships).2.2 > 0 &&
      ("active" : String) == "active") = true := by
    simp [hmod]
  have hroles1 : (memberStatusUpdate db C E "active" t1).1.clubRoles =
      upsertClubRole db.clubRoles C E t1 :=
    memberStatusUpdate_clubRoles_then db C E "active" t1 hstb hon
  have hupsert : upsertClubRole db.clubRoles C E t1 =
      db.clubRoles ++ [⟨C, E, "member", MEMBER_PERMISSIONS, t1⟩] := by
    simp [upsertClubRole, hg]
  refine ⟨?_, by decide, ?_⟩
  · rw [hroles1, hupsert, List.filter_append, filter_eq_nil_of_find?_none hg]
    simp
  · have hmem1 : (memberStatusUpdate db C E "active" t1).1.memberships =
        (updateOneList (fun m => m.clubId == C && m.userEmail == E)
          (fun m => { m with status := "active" }) db.memberships).1 :=
      memberStatusUpdate_memberships db C E "active" t1 hstb
    have hfind2 : ((memberStatusUpdate db C E "active" t1).1.memberships).find?
        (fun m => m.clubId == C && m.userEmail == E) =
        some ({ m0 with status := "active" }) := by
      rw [hmem1]
      exact @find?_updateOneList_pres MembershipDoc _
        (fun m => m.clubId == C && m.userEmail == E)
        (fun m => { m with status := "active" })
        (fun m hmm => by simpa using hmm) db.memberships m0 hm
    have hc2 := @updateOneList_counts MembershipDoc _
      (fun m => m.clubId == C && m.userEmail == E)
      (fun m => { m with status := "active" })
      (memberStatusUpdate db C E "active" t1).1.memberships
      ({ m0 with status := "active" }) hfind2
    have hmod2 : (updateOneList (fun m => m.clubId == C && m.userEmail == E)
        (fun m => { m with status := "active" })
        (memberStatusUpdate db C E "active" t1).1.memberships).2.2 = 0 := by
      rw [hc2.2, if_pos rfl]
    exact memberStatusUpdate_clubRoles_else (memberStatusUpdate db C E "active" t1).1
      C E "active" t2 hstb (by simp [hmod2])

/-- Fixture pending membership for the C5 witness. -/
def c5mem : MembershipDoc := ⟨oid1, "c1", "bob@x.com", "pending"⟩

/-- Fixture database for the C5 witness. -/
def c5db : DB := ⟨[], [], [c5mem], [], []⟩

/-- C5 witness: approving the fixture pending membership once yields the
single expected role grant with assignedAt 5, and the retry at time 6
changes no role grant. -/
theorem c5_witness :
    ((memberStatusUpdate c5db "c1" "bob@x.com" "active" 5).1.clubRoles.filter
        (fun g => g.clubId == "c1" && g.userEmail == "bob@x.com")) =
      [⟨"c1", "bob@x.com", "member", MEMBER_PERMISSIONS, 5⟩] ∧
    MEMBER_PERMISSIONS ≠ [] ∧
    (memberStatusUpdate (memberStatusUpdate c5db "c1" "bob@x.com" "active" 5).1
        "c1" "bob@x.com" "active" 6).1.clubRoles =
      (memberStatusUpdate c5db "c1" "bob@x.com" "active" 5).1.clubRoles :=
  c5_role_grant_idempotent c5db "c1" "bob@x.com" 5 6 c5mem (by decide) rfl (by decide)

/-! ## Claim C6 — re-application after rejection, Conflict after approval -/

/-- C6: with an existing application for the body email, a re-application
while the stored status is rejected resets it to pending with name,
reason, photoURL and appliedAt overwritten and the email-keyed identity
(email and id) untouched, answering 200; the same request while the
stored status is approved answers Conflict 409 and changes nothing. -/
theorem c6_reapplication (db : DB) (b : ManagerApplicationBody) (now : Nat)
    (newId : String) (ex : ManagerAppDoc)
    (hname : b.name ≠ "") (hemail : b.email ≠ "")
    (hfind : db.clubManagers.find? (fun m => m.email == b.email) = some ex) :
    (ex.status = "rejected" →
      (managerApply db b now newId).2.status = 200 ∧
      ((managerApply db b now newId).1.clubManagers.find?
          (fun m => m.email == b.email)) =
        some { ex with
          name := b.name
          reason := b.reason
          photoURL := b.photoURL
          status := "pending"
          appliedAt := now }) ∧
    (ex.status = "approved" → managerApply db b now newId = (db, sendOnly 409)) := by
  have hnb : (b.name == "") = false := beq_eq_false_iff_ne.mpr hname
  have heb : (b.email == "") = false := beq_eq_false_iff_ne.mpr hemail
  constructor
  · intro hrej
    have hstb : (ex.status == "rejected") = true := by simp [hrej]
    have hfind2 := @find?_updateOneList_pres ManagerAppDoc _
      (fun m => m.email == b.email)
      (fun m => { m with
        name := b.name
        reason := b.reason
        photoURL := b.photoURL
        status := "pending"
        appliedAt := now })
      (fun m hm => by simpa using hm) db.clubManagers ex hfind
    constructor
    · simp [managerApply, hnb, heb, hfind, hstb]
    · simpa [managerApply, hnb, heb, hfind, hstb] using hfind2
  · intro happ
    have hstb : (ex.status == "rejected") = false := by rw [happ]; decide
    simp [managerApply, hnb, heb, hfind, hstb]

/-- Fixture rejected application for the C6 witness. -/
def c6rejected : ManagerAppDoc := ⟨oid1, "carl@x.com", "Old", "old", "oldp", "rejected", 1⟩

/-- Fixture approved application for the C6 witness. -/
def c6approved : ManagerAppDoc := ⟨oid1, "carl@x.com", "Carl", "r", "p", "approved", 1⟩

/-- Database holding the rejected fixture application. -/
def c6db1 : DB := ⟨[], [], [], [], [c6rejected]⟩

/-- Database holding the approved fixture application. -/
def c6db2 : DB := ⟨[], [], [], [], [c6approved]⟩

/-- Re-application body for the C6 witness. -/
def c6body : ManagerApplicationBody := ⟨"Carl", "carl@x.com", "newR", "newP"⟩

/-- C6 witness: re-applying over the rejected fixture answers 200 and
resets it to pending with the new fields and appliedAt 9; the identical
request over the approved fixture answers 409 and changes nothing. -/
theorem c6_witness :
    ((managerApply c6db1 c6body 9 oid2).2.status = 200 ∧
      ((managerApply c6db1 c6body 9 oid2).1.clubManagers.find?
          (fun m => m.email == c6body.email)) =
        some { c6rejected with
          name := c6body.name
          reason := c6body.reason
          photoURL := c6body.photoURL
          status := "pending"
          appliedAt := 9 }) ∧
    managerApply c6db2 c6body 9 oid2 = (c6db2, sendOnly 409) :=
  ⟨(c6_reapplication c6db1 c6body 9 oid2 c6rejected (by decide) (by decide)
      (by decide)).1 rfl,
    (c6_reapplication c6db2 c6body 9 oid2 c6approved (by decide) (by decide)
      (by decide)).2 rfl⟩

end ClubSphere
